import Mathlib

/-!
Shallow embedding of fluxnetCDF.py, a converter from FLUXNET2015 station CSV
files to annotated netCDF output.  Python strings are modelled as lists of
characters, Python exceptions as the PyErr type, and fallible Python code as
functions into Except PyErr.  Filesystem state and the reference tables read
at module load are collected in an Env record so every function is a pure
function of its inputs.
-/

/-- Column and variable names, site codes and other Python strings, modelled
as lists of characters. -/
abbrev Chars := List Char

/-- Coercion of a Lean string literal to the Chars model. -/
def nm (s : String) : Chars := s.toList

/-- Numeric cell values of a dataframe column.  A data value is never
inspected by the script except for the integer timestamp column, so cells
are modelled as integers. -/
abbrev Cell := Int

/-- Python exceptions that the script can raise. -/
inductive PyErr where
  /-- Python KeyError: a missing dataframe column or a missing label in a
  pandas loc lookup. -/
  | keyError
  /-- Python IndexError: a sequence index out of range, as raised by
  values[0] on an empty selection or by an out-of-range split piece. -/
  | indexError
  /-- Python UnboundLocalError, a NameError subclass: a local variable such
  as v in flux2netcdf or date_format in check_date_format is read before any
  assignment to it has run. -/
  | nameError
  /-- Python TypeError raised by np.isnan when it is applied to a unit
  string, since isnan only accepts numeric input. -/
  | typeErrorIsnan
  /-- Python TypeError raised by the bare statement raise SiteCodeError:
  raising a class instantiates it with no arguments, and the initializer of
  SiteCodeError requires the positional argument site, so the instantiation
  itself fails with TypeError instead of producing a SiteCodeError. -/
  | typeErrorSiteInit
  /-- SiteCodeError raised with its site argument, line 127 of the source. -/
  | siteCodeError (site : Chars)
  /-- SetTypeError raised with the invalid set type, line 81. -/
  | setTypeError (settype : Chars)
  /-- TemporalResolutionError raised with the invalid aggregation, line 119. -/
  | temporalResolutionError (agg : Chars)
  deriving DecidableEq, Repr

/-- Python split on the underscore character, matching CPython semantics of
str.split with an explicit separator: empty pieces are preserved and the
empty string yields one empty piece. -/
def pySplitUnd : Chars → List Chars
  | [] => [[]]
  | c :: rest =>
    match pySplitUnd rest with
    | [] => [[]]
    | h :: t => if c = '_' then [] :: h :: t else (c :: h) :: t

/-- Python str.isdigit: true iff the string is nonempty and every character
is a digit.  ASCII digits suffice for the inputs of this script. -/
def pyIsDigit (s : Chars) : Bool := !s.isEmpty && s.all Char.isDigit

/-- Prefix test used by the substring test below. -/
def isPrefixB : Chars → Chars → Bool
  | [], _ => true
  | _ :: _, [] => false
  | a :: as, b :: bs => a == b && isPrefixB as bs

/-- Python substring containment, the expression needle in hay on two
strings. -/
def substrB (needle : Chars) : Chars → Bool
  | [] => needle.isEmpty
  | c :: t => isPrefixB needle (c :: t) || substrB needle t

/-- Python sequence indexing seq[i] for a nonnegative index: IndexError when
the index is out of range. -/
def pyIdx (l : List α) (i : Nat) : Except PyErr α :=
  match l.get? i with
  | some a => .ok a
  | none => .error .indexError

/-- Monadic list filter modelling a Python list comprehension whose filter
predicate may itself raise. -/
def pyFilter (p : α → Except PyErr Bool) : List α → Except PyErr (List α)
  | [] => .ok []
  | a :: as =>
    match p a with
    | .error e => .error e
    | .ok b =>
      match pyFilter p as with
      | .error e => .error e
      | .ok rest => .ok (if b then a :: rest else rest)

/-- One row of the variable legend doc/variable_codes_FULLSET_20200504.csv,
the module-level pandas frame named legend.  The units field is none when
the CSV cell is empty, which pandas represents as a float NaN. -/
structure LegendRow where
  varName : Chars
  description : Chars
  units : Option Chars
  deriving DecidableEq, Repr

/-- Values storable in a netCDF attribute dictionary. -/
inductive AttrValue where
  | str (s : Chars)
  | num (q : Rat)
  | boolV (b : Bool)
  | nanV
  deriving DecidableEq, Repr

/-- Attribute dictionary of one variable or coordinate, modelled as an
association list in insertion order. -/
abbrev Attrs := List (Chars × AttrValue)

/-- One step of the canonical-name resolution in the variable-attribute loop
of flux2netcdf, source lines 151 to 155: first a membership test of the raw
column name in the legend, else the dynamic-threshold CUT rewrite that
replaces the last two characters by XX, else the Python local v silently
keeps its previous value, where none models v not yet being assigned.
Python evaluates split by underscore at index -2 first, so a name whose
split has a single piece raises IndexError. -/
def resolveV (legendVars : List Chars) (vPrev : Option Chars) (colName : Chars) :
    Except PyErr (Option Chars) :=
  if colName ∈ legendVars then .ok (some colName)
  else if 2 ≤ (pySplitUnd colName).length then
    if (pySplitUnd colName).getD ((pySplitUnd colName).length - 2) [] = nm ("CUT")
        ∧ pyIsDigit ((pySplitUnd colName).getLastD []) then
      .ok (some (colName.dropLast.dropLast ++ nm ("XX")))
    else .ok vPrev
  else .error .indexError

/-- Unit and description resolution for a canonical name v, source lines 156
to 171.  The first legend row whose Variable field equals v supplies the
description; when its Units cell is NaN the three rows immediately following
it form the unit block and the row whose Variable field equals the temporal
aggregation supplies the unit, with the empty string substituted when no
block row matches because the IndexError from values[0] is caught.  When
the Units cell holds a string, np.isnan raises TypeError, and when v is not
present in the legend at all, values[0] on the empty selection raises
IndexError. -/
def attrsFor (legend : List LegendRow) (temporal_agg v : Chars) : Except PyErr Attrs :=
  match legend.findIdx? (fun r => decide (r.varName = v)) with
  | none => .error .indexError
  | some i =>
    match legend.get? i with
    | none => .error .indexError
    | some row =>
      match row.units with
      | some _ => .error .typeErrorIsnan
      | none =>
        .ok [(nm ("long_name"), AttrValue.str row.description),
             (nm ("units"),
               match ((legend.drop (i + 1)).take 3).find?
                   (fun r => decide (r.varName = temporal_agg)) with
               | none => AttrValue.str []
               | some r =>
                 match r.units with
                 | some u => AttrValue.str u
                 | none => AttrValue.nanV),
             (nm ("_FillValue"), AttrValue.num (-9999))]

/-- Variable-attribute loop of flux2netcdf, source lines 150 to 171,
threading the Python local v across iterations. -/
def varLoop (legend : List LegendRow) (temporal_agg : Chars) :
    Option Chars → List Chars → Except PyErr (List (Chars × Attrs))
  | _, [] => .ok []
  | vPrev, colName :: rest =>
    match resolveV (legend.map (·.varName)) vPrev colName with
    | .error e => .error e
    | .ok none => .error .nameError
    | .ok (some v) =>
      match attrsFor legend temporal_agg v with
      | .error e => .error e
      | .ok a =>
        match varLoop legend temporal_agg (some v) rest with
        | .error e => .error e
        | .ok tail => .ok ((colName, a) :: tail)

/-- Groups flagged 1 in output_variables.csv, source line 98. -/
def output_groups (flags : List (Chars × Int)) : List Chars :=
  (flags.filter (fun p => decide (p.2 = 1))).map (·.1)

/-- Match of the regular expression obtained from a wildcard variable name
by replacing the hash mark with a digit class, anchored at the start of the
column name as re.match is.  Variable names contain no other regular
expression metacharacters, so every other pattern character is literal. -/
def reMatchPre : Chars → Chars → Bool
  | [], _ => true
  | _ :: _, [] => false
  | p :: ps, c :: cs => (if p = '#' then c.isDigit else p == c) && reMatchPre ps cs

/-- Wildcard expansion of filter_output, source lines 102 to 105: for each
enabled variable name containing a hash mark, the dataframe columns matching
its pattern, flattened in order. -/
def numberedExpansion (ovs cols : List Chars) : List Chars :=
  ((ovs.filter (fun v => v.contains '#')).map
    (fun nv => cols.filter (fun c => reMatchPre nv c))).flatten

/-- Variables of the enabled groups in catalog order, source line 99. -/
def enabled_list (vgroups : List (Chars × Chars)) (flags : List (Chars × Int)) : List Chars :=
  (vgroups.filter (fun p => decide (p.1 ∈ output_groups flags))).map (·.2)

/-- Enabled variables together with their wildcard expansion against the
actual dataframe columns, source line 106. -/
def enabledPlusNumbered (vgroups : List (Chars × Chars)) (flags : List (Chars × Int))
    (cols : List Chars) : List Chars :=
  enabled_list vgroups flags ++ numberedExpansion (enabled_list vgroups flags) cols

/-- Allowed-variable list computed by filter_output, source lines 97 to 110:
the variables of the enabled groups in catalog order, then the wildcard
expansion against the actual dataframe columns, then the final exclusion of
every name containing QC when the QUALITY FLAGS group is not enabled. -/
def allowed_variables (vgroups : List (Chars × Chars)) (flags : List (Chars × Int))
    (cols : List Chars) : List Chars :=
  if nm ("QUALITY FLAGS") ∈ output_groups flags then enabledPlusNumbered vgroups flags cols
  else (enabledPlusNumbered vgroups flags cols).filter (fun v => !substrB (nm ("QC")) v)

/-- Dataframe, modelled as an ordered association list of named columns. -/
abbrev Table := List (Chars × List Cell)

/-- Column filter of filter_output, source line 112: drop every column of
the dataframe that is not listed among the allowed variables. -/
def filter_output (vgroups : List (Chars × Chars)) (flags : List (Chars × Int))
    (df : Table) : Table :=
  df.filter (fun c => decide (c.1 ∈ allowed_variables vgroups flags (df.map (·.1))))

/-- Python str applied to an integer cell. -/
def pyStr (i : Cell) : Chars := (toString i).toList

/-- Column access of a dataframe by name, as the pandas getitem. -/
def lookupCol (df : Table) (c : Chars) : Option (List Cell) :=
  (df.find? (fun p => decide (p.1 = c))).map (·.2)

/-- check_date_format, source lines 66 to 75: the digit length of the first
timestamp entry selects the strftime format string; for any other length
the local date_format is never assigned and the return statement raises
UnboundLocalError.  A missing column or an empty column raises KeyError at
the first-entry access. -/
def check_date_format (dframe : Table) (time_col_name : Chars) : Except PyErr Chars :=
  match lookupCol dframe time_col_name with
  | none => .error .keyError
  | some col =>
    match col.head? with
    | none => .error .keyError
    | some x0 =>
      if (pyStr x0).length = 4 then .ok (nm ("%Y"))
      else if (pyStr x0).length = 8 then .ok (nm ("%Y%m%d"))
      else if (pyStr x0).length = 12 then .ok (nm ("%Y%m%d%H%M"))
      else .error .nameError

/-- Site metadata row of doc/site_info.csv. -/
structure SiteMeta where
  lat : Rat
  lon : Rat
  elev : Rat
  country : Chars
  pft : Chars
  deriving DecidableEq, Repr, Inhabited

/-- External filesystem state and reference tables of one run: the directory
listing of the data path, the CSV basenames found per station directory, CSV
parsing where none models a pandas ValueError, the site registry, the
variable legend, and the two policy tables read by filter_output. -/
structure Env where
  listing : List Chars
  csvFiles : Chars → List Chars
  readTable : Chars → Option Table
  site_info : List (Chars × SiteMeta)
  legend : List LegendRow
  variable_groups : List (Chars × Chars)
  output_flags : List (Chars × Int)

/-- Filter predicate of the first comprehension over CSV basenames, source
line 87: the second underscore piece must equal the site code and, only when
it does, the fourth piece must equal the set type, matching the Python
short-circuit evaluation order. -/
def csvNamePred1 (site settype : Chars) (f : Chars) : Except PyErr Bool :=
  match pyIdx (pySplitUnd f) 1 with
  | .error e => .error e
  | .ok p1 =>
    if p1 = site then
      match pyIdx (pySplitUnd f) 3 with
      | .error e => .error e
      | .ok p3 => .ok (decide (p3 = settype))
    else .ok false

/-- Filter predicate of the second comprehension, source line 88: the fifth
underscore piece must equal the temporal aggregation. -/
def csvNamePred2 (temporal_agg : Chars) (f : Chars) : Except PyErr Bool :=
  match pyIdx (pySplitUnd f) 4 with
  | .error e => .error e
  | .ok p4 => .ok (decide (p4 = temporal_agg))

/-- find_flux_file, source lines 78 to 89.  When the number of directories
containing the site code differs from one, the statement raise SiteCodeError
names the class without the required site argument, so instantiating the
exception raises TypeError rather than SiteCodeError. -/
def find_flux_file (env : Env) (site temporal_agg settype : Chars) : Except PyErr Chars :=
  if settype ∈ [nm ("FULLSET"), nm ("SUBSET")] then
    if (env.listing.filter (fun d => substrB site d)).length = 1 then
      match (env.listing.filter (fun d => substrB site d)).head? with
      | none => .error .indexError
      | some d =>
        match pyFilter (csvNamePred1 site settype) (env.csvFiles d) with
        | .error e => .error e
        | .ok files =>
          match pyFilter (csvNamePred2 temporal_agg) files with
          | .error e => .error e
          | .ok fnames =>
            match fnames.head? with
            | none => .error .indexError
            | some f0 => .ok (d ++ '/' :: f0)
    else .error .typeErrorSiteInit
  else .error (.setTypeError settype)

/-- Supported temporal aggregation codes, source line 118. -/
def supportedAggs : List Chars := [nm ("HH"), nm ("DD"), nm ("WW"), nm ("YY")]

/-- Annotated output dataset handed to the netCDF serializer: the filtered
table, the per-variable attribute dictionaries, the time axis, the scalar
coordinates with their attribute dictionaries, and the output file name.
The global attribute dictionary records the wall-clock conversion time and
is not modelled. -/
structure Output where
  table : Table
  dataVars : List (Chars × Attrs)
  time : List Cell
  lon : Rat
  lat : Rat
  lonAttrs : Attrs
  latAttrs : Attrs
  timeAttrs : Attrs
  outFile : Chars
  deriving DecidableEq, Repr, Inhabited

/-- Site registry lookup site_info.loc at the site label; a missing label
raises KeyError, which the surrounding try block does not catch since it
only handles ValueError and IndexError. -/
def lookupSite (info : List (Chars × SiteMeta)) (site : Chars) : Option SiteMeta :=
  (info.find? (fun p => decide (p.1 = site))).map (·.2)

/-- Column drop with the default errors policy of pandas drop: KeyError when
the column is absent. -/
def dropCol (df : Table) (c : Chars) : Except PyErr Table :=
  if df.any (fun p => decide (p.1 = c)) then .ok (df.filter (fun p => !decide (p.1 = c)))
  else .error .keyError

/-- Name of the time column selected by the temporal aggregation, source
lines 131 to 135. -/
def timeColName (temporal_agg : Chars) : Chars :=
  if temporal_agg = nm ("HH") then nm ("TIMESTAMP_START") else nm ("TIMESTAMP")

/-- Data columns reaching the variable-attribute loop: the dataframe after
the time column has moved to the index and filter_output has dropped the
columns outside the enabled groups, source lines 140 and 144. -/
def filteredColumns (env : Env) (temporal_agg : Chars) (df1 : Table) : Table :=
  filter_output env.variable_groups env.output_flags
    (df1.filter (fun p => !decide (p.1 = timeColName temporal_agg)))

/-- Body of flux2netcdf after the temporal-aggregation check, source lines
121 to 210: file discovery, CSV read and site lookup, dropping TIMESTAMP_END
at half-hourly resolution, timestamp format detection, moving the time
column to the index, column filtering, the variable-attribute loop, and
assembly of the annotated dataset.  Parsing the integer timestamps into
datetimes is not modelled; the time axis keeps the integer values. -/
def flux2body (env : Env) (site temporal_agg settype : Chars) : Except PyErr Output :=
  match find_flux_file env site temporal_agg settype with
  | .error e => .error e
  | .ok fname =>
    match env.readTable fname with
    | none => .error (.siteCodeError site)
    | some df0 =>
      match lookupSite env.site_info site with
      | none => .error .keyError
      | some metadata =>
        match (if temporal_agg = nm ("HH") then dropCol df0 (nm ("TIMESTAMP_END")) else .ok df0) with
        | .error e => .error e
        | .ok df1 =>
          match check_date_format df1 (timeColName temporal_agg) with
          | .error e => .error e
          | .ok _date_format =>
            match lookupCol df1 (timeColName temporal_agg) with
            | none => .error .keyError
            | some timeVals =>
              match varLoop env.legend temporal_agg none
                  ((filteredColumns env temporal_agg df1).map (·.1)) with
              | .error e => .error e
              | .ok dv =>
                .ok {
                  table := filteredColumns env temporal_agg df1,
                  dataVars := dv,
                  time := timeVals,
                  lon := metadata.lon,
                  lat := metadata.lat,
                  lonAttrs := [(nm ("standard_name"), AttrValue.str (nm ("longitude"))),
                               (nm ("long_name"), AttrValue.str (nm ("longitude coordinate"))),
                               (nm ("units"), AttrValue.str (nm ("degrees_east"))),
                               (nm ("_FillValue"), AttrValue.boolV false)],
                  latAttrs := [(nm ("standard_name"), AttrValue.str (nm ("latitude"))),
                               (nm ("long_name"), AttrValue.str (nm ("latitude coordinate"))),
                               (nm ("units"), AttrValue.str (nm ("degrees_north"))),
                               (nm ("_FillValue"), AttrValue.boolV false)],
                  timeAttrs := [(nm ("long_name"), AttrValue.str (nm ("time"))),
                                (nm ("_FillValue"), AttrValue.boolV false)],
                  outFile := nm ("netcdf/FLX_") ++ site ++ nm ("_") ++ temporal_agg ++ nm (".nc") }

/-- flux2netcdf, source lines 116 to 210: the temporal-aggregation check at
lines 118 and 119 runs before any file access. -/
def flux2netcdf (env : Env) (site temporal_agg settype : Chars) : Except PyErr Output :=
  if temporal_agg ∈ supportedAggs then flux2body env site temporal_agg settype
  else .error (.temporalResolutionError temporal_agg)

/-- Recognizer of a raised TemporalResolutionError. -/
def tempRaised : Except PyErr α → Bool
  | .error (.temporalResolutionError _) => true
  | _ => false

/-- Demonstration legend laid out like the real legend CSV: a canonical row
with an empty Units cell followed by its unit block of rows keyed by
aggregation code in the Variable column. -/
def demoLegend : List LegendRow :=
  [⟨nm ("TA_F_MDS"), nm ("Air temperature"), none⟩,
   ⟨nm ("HH"), nm ("unit block row"), some (nm ("deg C"))⟩,
   ⟨nm ("DD"), nm ("unit block row"), some (nm ("deg C"))⟩,
   ⟨nm ("WW"), nm ("unit block row"), some (nm ("deg C"))⟩,
   ⟨nm ("YY"), nm ("unit block row"), some (nm ("deg C"))⟩,
   ⟨nm ("SW_IN_F"), nm ("Shortwave radiation incoming"), none⟩,
   ⟨nm ("HH"), nm ("unit block row"), some (nm ("W m-2"))⟩,
   ⟨nm ("DD"), nm ("unit block row"), some (nm ("W m-2"))⟩,
   ⟨nm ("WW"), nm ("unit block row"), some (nm ("W m-2"))⟩]

/-- Legend whose row for the DD aggregation sits four rows after the
canonical row, one row beyond the three-row unit block window. -/
def demoLegendW : List LegendRow :=
  [⟨nm ("P_F"), nm ("Precipitation"), none⟩,
   ⟨nm ("HH"), nm ("unit block row"), some (nm ("mm"))⟩,
   ⟨nm ("WW"), nm ("unit block row"), some (nm ("mm"))⟩,
   ⟨nm ("YY"), nm ("unit block row"), some (nm ("mm"))⟩,
   ⟨nm ("DD"), nm ("unit block row"), some (nm ("mm"))⟩]

/-- Attribute dictionary that the loop builds for TA_F_MDS at daily
aggregation over demoLegend. -/
def taAttrs : Attrs :=
  [(nm ("long_name"), AttrValue.str (nm ("Air temperature"))),
   (nm ("units"), AttrValue.str (nm ("deg C"))),
   (nm ("_FillValue"), AttrValue.num (-9999))]

/-- Demonstration variable-group catalog doc/variable_groups.csv. -/
def demoVGroups : List (Chars × Chars) :=
  [(nm ("RADIATION"), nm ("SW_IN_F")),
   (nm ("QUALITY FLAGS"), nm ("SW_IN_F_QC")),
   (nm ("MET"), nm ("TA_F_MDS_#"))]

/-- Demonstration flag table output_variables.csv with the quality-flag
group disabled. -/
def demoFlags : List (Chars × Int) :=
  [(nm ("RADIATION"), 1), (nm ("QUALITY FLAGS"), 0), (nm ("MET"), 1)]

/-- Demonstration raw column set including wildcard replicates and
quality-flag columns. -/
def demoCols : List Chars :=
  [nm ("SW_IN_F"), nm ("SW_IN_F_QC"), nm ("TA_F_MDS_1"), nm ("TA_F_MDS_1_QC")]

/-- Station directory name of the demonstration environment. -/
def demoDir : Chars := nm ("FLX_AA-Sit_FLUXNET2015_FULLSET_2004-2005_1-4")

/-- Station CSV basename of the demonstration environment. -/
def demoFile : Chars := nm ("FLX_AA-Sit_FLUXNET2015_FULLSET_DD_2004-2005_1-4.csv")

/-- Demonstration station table: a daily timestamp column, one known
radiation column and one column absent from every enabled group. -/
def demoTable : Table :=
  [(nm ("TIMESTAMP"), [20040101, 20040102]),
   (nm ("SW_IN_F"), [180, 200]),
   (nm ("FOO"), [1, 2])]

/-- Demonstration environment on which the whole conversion succeeds. -/
def demoEnv : Env :=
  { listing := [demoDir],
    csvFiles := fun d => if d = demoDir then [demoFile] else [],
    readTable := fun f => if f = demoDir ++ '/' :: demoFile then some demoTable else none,
    site_info := [(nm ("AA-Sit"), ⟨47, 11, 550, nm ("AT"), nm ("GRA")⟩)],
    legend := demoLegend,
    variable_groups := demoVGroups,
    output_flags := demoFlags }

/-- Environment whose directory listing contains no entry matching the
requested site code. -/
def demoEnvNoSite : Env :=
  { demoEnv with listing := [nm ("FLX_XX-Abc_FLUXNET2015_FULLSET_2004-2005_1-4")] }

/-- Environment whose directory listing contains two entries matching the
requested site code. -/
def demoEnvTwoSites : Env :=
  { demoEnv with listing := [demoDir, demoDir ++ nm ("_copy")] }

/-- Output value produced by the successful demonstration run. -/
def demoRunOut : Output :=
  match flux2netcdf demoEnv (nm ("AA-Sit")) (nm ("DD")) (nm ("FULLSET")) with
  | .ok o => o
  | .error _ => default

theorem pySplitUnd_ne_nil (s : Chars) : pySplitUnd s ≠ [] := by
  cases s with
  | nil => simp [pySplitUnd]
  | cons c rest =>
    cases h : pySplitUnd rest with
    | nil => simp [pySplitUnd, h]
    | cons a t => by_cases hc : c = '_' <;> simp [pySplitUnd, h, hc]

theorem pySplitUnd_append (xs ys : Chars) :
    pySplitUnd (xs ++ '_' :: ys) = pySplitUnd xs ++ pySplitUnd ys := by
  induction xs with
  | nil =>
    cases h : pySplitUnd ys with
    | nil => exact absurd h (pySplitUnd_ne_nil ys)
    | cons a t => simp [pySplitUnd, h]
  | cons c cs ih =>
    cases h : pySplitUnd cs with
    | nil => exact absurd h (pySplitUnd_ne_nil cs)
    | cons a t =>
      by_cases hc : c = '_' <;> simp [pySplitUnd, ih, h, hc]

theorem pySplitUnd_no_und (s : Chars) (h : '_' ∉ s) : pySplitUnd s = [s] := by
  induction s with
  | nil => rfl
  | cons c cs ih =>
    have h1 : '_' ∉ cs := fun hm => h (List.mem_cons_of_mem _ hm)
    have hc : c ≠ '_' := fun e => h (by rw [e]; exact List.mem_cons_self _ _)
    simp [pySplitUnd, ih h1, hc]

theorem isDigit_ne_und {c : Char} (h : c.isDigit = true) : c ≠ '_' := by
  intro e
  rw [e] at h
  exact absurd h (by decide)

/-- C2 counterexample: the raw column TA_F_MDS_CUT_5 matches the pattern of
a base, the token CUT and a nonempty digit sequence and is not a catalog
entry, yet the loop rewrites it to TA_F_MDS_CUTXX, which differs from the
canonical form TA_F_MDS_CUT_XX claimed by the specification. -/
theorem resolveV_one_digit_cut_counterexample :
    resolveV [] none (nm ("TA_F_MDS_CUT_5")) = .ok (some (nm ("TA_F_MDS_CUTXX")))
    ∧ nm ("TA_F_MDS_CUTXX") ≠ nm ("TA_F_MDS_CUT_XX") := by
  exact ⟨rfl, by decide⟩

/-- C2 amended: for a raw column of the shape base _CUT_ followed by exactly
two digits that is not itself a catalog entry, the loop rewrites it to base
_CUT_XX, so all two-digit threshold replicates of one base resolve to the
same canonical name. -/
theorem resolveV_two_digit_cut_rewrite (legendVars : List Chars) (vPrev : Option Chars)
    (base : Chars) (d1 d2 : Char) (h1 : d1.isDigit = true) (h2 : d2.isDigit = true)
    (hnot : base ++ nm ("_CUT_") ++ [d1, d2] ∉ legendVars) :
    resolveV legendVars vPrev (base ++ nm ("_CUT_") ++ [d1, d2]) =
      .ok (some (base ++ nm ("_CUT_XX"))) := by
  have hd1 : d1 ≠ '_' := isDigit_ne_und h1
  have hd2 : d2 ≠ '_' := isDigit_ne_und h2
  have hdd : pySplitUnd [d1, d2] = [[d1, d2]] := by
    apply pySplitUnd_no_und
    intro hm
    simp only [List.mem_cons, List.not_mem_nil, or_false] at hm
    rcases hm with e | e
    · exact hd1 e.symm
    · exact hd2 e.symm
  have e1 : base ++ nm ("_CUT_") ++ [d1, d2] =
      base ++ '_' :: (nm ("CUT") ++ '_' :: [d1, d2]) := by
    rw [List.append_assoc]
    rfl
  have hsplit : pySplitUnd (base ++ nm ("_CUT_") ++ [d1, d2]) =
      pySplitUnd base ++ [nm ("CUT"), [d1, d2]] := by
    rw [e1, pySplitUnd_append, pySplitUnd_append, hdd,
      show pySplitUnd (nm ("CUT")) = [nm ("CUT")] from by decide]
    rfl
  have hlen : (pySplitUnd base ++ [nm ("CUT"), [d1, d2]]).length =
      (pySplitUnd base).length + 2 := by simp
  have hget : (pySplitUnd base ++ [nm ("CUT"), [d1, d2]]).getD
      ((pySplitUnd base ++ [nm ("CUT"), [d1, d2]]).length - 2) [] = nm ("CUT") := by
    rw [hlen, List.getD_eq_getElem?_getD, Nat.add_sub_cancel,
      List.getElem?_append_right (Nat.le_refl _)]
    simp
  have hlast : (pySplitUnd base ++ [nm ("CUT"), [d1, d2]]).getLastD [] = [d1, d2] := by
    rw [List.getLastD_eq_getLast?,
      show pySplitUnd base ++ [nm ("CUT"), [d1, d2]] =
        (pySplitUnd base ++ [nm ("CUT")]) ++ [[d1, d2]] by simp,
      List.getLast?_concat]
    rfl
  have hdrop : (base ++ nm ("_CUT_") ++ [d1, d2]).dropLast.dropLast ++ nm ("XX") =
      base ++ nm ("_CUT_XX") := by
    rw [show base ++ nm ("_CUT_") ++ [d1, d2] =
        (base ++ nm ("_CUT_") ++ [d1]) ++ [d2] by simp,
      List.dropLast_concat,
      show base ++ nm ("_CUT_") ++ [d1] = (base ++ nm ("_CUT_")) ++ [d1] from rfl,
      List.dropLast_concat, List.append_assoc]
    rfl
  unfold resolveV
  rw [if_neg hnot, hsplit]
  rw [if_pos (by rw [hlen]; exact Nat.le_add_left 2 _)]
  rw [if_pos ⟨hget, by rw [hlast]; simp [pyIsDigit, h1, h2]⟩]
  rw [hdrop]

/-- C2 amended witness at the concrete replicate TA_F_MDS_CUT_50. -/
theorem resolveV_two_digit_cut_rewrite_witness :
    resolveV [] none (nm ("TA_F_MDS") ++ nm ("_CUT_") ++ ['5', '0']) =
      .ok (some (nm ("TA_F_MDS") ++ nm ("_CUT_XX"))) :=
  resolveV_two_digit_cut_rewrite [] none (nm ("TA_F_MDS")) '5' '0'
    (by decide) (by decide) (by decide)

/-- C1: the variable-attribute loop does not drop a column that matches no
catalog entry: when the unmatched column comes first the loop raises
UnboundLocalError because the local v was never assigned, and when it
follows a matched column the loop silently keeps the unmatched column and
attaches the previous variable's metadata to it. -/
theorem varLoop_unmatched_column_behavior :
    varLoop demoLegend (nm ("DD")) none [nm ("FOO_UNKNOWN")] = .error .nameError
    ∧ varLoop demoLegend (nm ("DD")) none [nm ("TA_F_MDS"), nm ("FOO_UNKNOWN")] =
        .ok [(nm ("TA_F_MDS"), taAttrs), (nm ("FOO_UNKNOWN"), taAttrs)] := by
  exact ⟨rfl, rfl⟩

/-- C7: when zero or two directory entries contain the site code,
find_flux_file raises the TypeError coming from instantiating SiteCodeError
without its required site argument, not a SiteCodeError. -/
theorem find_flux_file_sitecode_typeerror :
    find_flux_file demoEnvNoSite (nm ("AA-Sit")) (nm ("DD")) (nm ("FULLSET")) =
      .error .typeErrorSiteInit
    ∧ find_flux_file demoEnvTwoSites (nm ("AA-Sit")) (nm ("DD")) (nm ("FULLSET")) =
      .error .typeErrorSiteInit
    ∧ PyErr.typeErrorSiteInit ≠ PyErr.siteCodeError (nm ("AA-Sit")) := by
  refine ⟨rfl, rfl, ?_⟩
  intro h
  cases h

/-- C3: for a canonical row whose Units cell is absent and a requested
aggregation with no matching row in the three-row unit block, the resolved
unit is the empty string; the lookup returns normally and never substitutes
the unit of a different aggregation. -/
theorem attrsFor_unit_block_no_match_empty (legend : List LegendRow) (agg v : Chars)
    (i : Nat) (row : LegendRow)
    (hi : legend.findIdx? (fun r => decide (r.varName = v)) = some i)
    (hrow : legend.get? i = some row)
    (hnan : row.units = none)
    (hnom : ((legend.drop (i + 1)).take 3).find? (fun r => decide (r.varName = agg)) = none) :
    attrsFor legend agg v =
      .ok [(nm ("long_name"), AttrValue.str row.description),
           (nm ("units"), AttrValue.str []),
           (nm ("_FillValue"), AttrValue.num (-9999))] := by
  simp only [attrsFor, hi, hrow, hnan, hnom]

/-- C3 witness: SW_IN_F over the demonstration legend at yearly aggregation,
whose unit block has no YY row. -/
theorem attrsFor_unit_block_no_match_empty_witness :
    attrsFor demoLegend (nm ("YY")) (nm ("SW_IN_F")) =
      .ok [(nm ("long_name"), AttrValue.str (nm ("Shortwave radiation incoming"))),
           (nm ("units"), AttrValue.str []),
           (nm ("_FillValue"), AttrValue.num (-9999))] :=
  attrsFor_unit_block_no_match_empty demoLegend (nm ("YY")) (nm ("SW_IN_F")) 5
    ⟨nm ("SW_IN_F"), nm ("Shortwave radiation incoming"), none⟩ rfl rfl rfl rfl

/-- C9: the unit-block lookup inspects exactly the three rows following the
canonical row, so even when a row matching the requested aggregation exists
further down the catalog, an empty window match still resolves the unit to
the empty string. -/
theorem attrsFor_unit_block_window_limit (legend : List LegendRow) (agg v : Chars)
    (i j : Nat) (row rj : LegendRow)
    (hi : legend.findIdx? (fun r => decide (r.varName = v)) = some i)
    (hrow : legend.get? i = some row)
    (hnan : row.units = none)
    (hnom : ((legend.drop (i + 1)).take 3).find? (fun r => decide (r.varName = agg)) = none)
    (hj : legend.get? j = some rj)
    (hja : rj.varName = agg)
    (hout : i + 4 ≤ j) :
    attrsFor legend agg v =
      .ok [(nm ("long_name"), AttrValue.str row.description),
           (nm ("units"), AttrValue.str []),
           (nm ("_FillValue"), AttrValue.num (-9999))] := by
  simp only [attrsFor, hi, hrow, hnan, hnom]

/-- C9 witness: P_F over a legend whose DD row sits four rows below the
canonical row, one row past the unit-block window. -/
theorem attrsFor_unit_block_window_limit_witness :
    attrsFor demoLegendW (nm ("DD")) (nm ("P_F")) =
      .ok [(nm ("long_name"), AttrValue.str (nm ("Precipitation"))),
           (nm ("units"), AttrValue.str []),
           (nm ("_FillValue"), AttrValue.num (-9999))] :=
  attrsFor_unit_block_window_limit demoLegendW (nm ("DD")) (nm ("P_F")) 0 4
    ⟨nm ("P_F"), nm ("Precipitation"), none⟩
    ⟨nm ("DD"), nm ("unit block row"), some (nm ("mm"))⟩
    rfl rfl rfl rfl rfl rfl (by decide)

/-- C4: when the QUALITY FLAGS group is not among the enabled groups, the
allowed-variable list built by filter_output contains no name with the QC
substring, even after wildcard expansion, and consequently no QC-named
column survives into the filtered dataframe. -/
theorem allowed_variables_qc_excluded (vgroups : List (Chars × Chars))
    (flags : List (Chars × Int)) (cols : List Chars) (df : Table)
    (h : nm ("QUALITY FLAGS") ∉ output_groups flags) :
    (allowed_variables vgroups flags cols).all (fun v => !substrB (nm ("QC")) v) = true
    ∧ ((filter_output vgroups flags df).map (·.1)).all
        (fun v => !substrB (nm ("QC")) v) = true := by
  have key : ∀ cols2 : List Chars,
      (allowed_variables vgroups flags cols2).all (fun v => !substrB (nm ("QC")) v) = true := by
    intro cols2
    unfold allowed_variables
    rw [if_neg h, List.all_eq_true]
    intro v hv
    exact (List.mem_filter.mp hv).2
  refine ⟨key cols, ?_⟩
  rw [List.all_eq_true]
  intro v hv
  rw [List.mem_map] at hv
  obtain ⟨c, hc, rfl⟩ := hv
  unfold filter_output at hc
  have hmem := (List.mem_filter.mp hc).2
  rw [decide_eq_true_eq] at hmem
  exact List.all_eq_true.mp (key (df.map (·.1))) _ hmem

/-- C4 witness: with the quality-flag group disabled, the demonstration
configuration yields an allowed list free of QC names even though the
wildcard pattern matched a QC-suffixed replicate column. -/
theorem allowed_variables_qc_excluded_witness :
    (allowed_variables demoVGroups demoFlags demoCols).all
      (fun v => !substrB (nm ("QC")) v) = true :=
  (allowed_variables_qc_excluded demoVGroups demoFlags demoCols [] (by decide)).1

/-- C5: the columns of the filtered dataframe are exactly the input columns
that occur in the allowed-variable list, in input order, and hence form a
sublist of the input columns; no column is introduced. -/
theorem filter_output_columns_intersection (vgroups : List (Chars × Chars))
    (flags : List (Chars × Int)) (df : Table) :
    (filter_output vgroups flags df).map (·.1) =
      (df.map (·.1)).filter
        (fun c => decide (c ∈ allowed_variables vgroups flags (df.map (·.1))))
    ∧ ((filter_output vgroups flags df).map (·.1)).Sublist (df.map (·.1)) := by
  constructor
  · unfold filter_output
    have gen : ∀ (l : List (Chars × List Cell)) (p : Chars → Bool),
        (l.filter (fun x => p x.1)).map (·.1) = (l.map (·.1)).filter p := by
      intro l p
      induction l with
      | nil => rfl
      | cons a t ih => by_cases hp : p a.1 <;> simp [List.filter, hp, ih]
    exact gen df (fun y => decide (y ∈ allowed_variables vgroups flags (df.map (·.1))))
  · unfold filter_output
    exact (List.filter_sublist df).map (·.1)

theorem tempRaised_true_iff (x : Except PyErr β) :
    tempRaised x = true ↔ ∃ a, x = .error (.temporalResolutionError a) := by
  cases x with
  | ok o => simp [tempRaised]
  | error e => cases e <;> simp [tempRaised]

theorem pyIdx_no_temporal (l : List α) (i : Nat) (a : Chars) :
    pyIdx l i ≠ .error (.temporalResolutionError a) := by
  unfold pyIdx
  cases l.get? i <;> simp

theorem pyFilter_no_temporal (p : α → Except PyErr Bool) (l : List α) (a : Chars)
    (hp : ∀ x, p x ≠ .error (.temporalResolutionError a)) :
    pyFilter p l ≠ .error (.temporalResolutionError a) := by
  induction l with
  | nil => simp [pyFilter]
  | cons x xs ih =>
    unfold pyFilter
    cases hx : p x with
    | error e =>
      intro hcon
      injection hcon with h2
      rw [h2] at hx
      exact hp x hx
    | ok b =>
      cases hr : pyFilter p xs with
      | error e =>
        intro hcon
        injection hcon with h2
        rw [h2] at hr
        exact ih hr
      | ok rest => simp

theorem csvNamePred1_no_temporal (site settype f a : Chars) :
    csvNamePred1 site settype f ≠ .error (.temporalResolutionError a) := by
  unfold csvNamePred1
  split
  next e heq =>
    intro hcon
    injection hcon with h2
    subst h2
    exact pyIdx_no_temporal _ _ _ heq
  next p1 heq =>
    split
    · split
      next e heq2 =>
        intro hcon
        injection hcon with h2
        subst h2
        exact pyIdx_no_temporal _ _ _ heq2
      next p3 heq2 => simp
    · simp

theorem csvNamePred2_no_temporal (temporal_agg f a : Chars) :
    csvNamePred2 temporal_agg f ≠ .error (.temporalResolutionError a) := by
  unfold csvNamePred2
  split
  next e heq =>
    intro hcon
    injection hcon with h2
    subst h2
    exact pyIdx_no_temporal _ _ _ heq
  next p4 heq => simp

theorem find_flux_file_no_temporal (env : Env) (site temporal_agg settype a : Chars) :
    find_flux_file env site temporal_agg settype ≠ .error (.temporalResolutionError a) := by
  unfold find_flux_file
  split
  · split
    · split
      · simp
      next d heq =>
        split
        next e heq2 =>
          intro hcon
          injection hcon with h2
          subst h2
          exact pyFilter_no_temporal _ _ _
            (fun f => csvNamePred1_no_temporal site settype f a) heq2
        next files heq2 =>
          split
          next e heq3 =>
            intro hcon
            injection hcon with h2
            subst h2
            exact pyFilter_no_temporal _ _ _
              (fun f => csvNamePred2_no_temporal temporal_agg f a) heq3
          next fnames heq3 =>
            split <;> simp
    · simp
  · simp

theorem resolveV_no_temporal (legendVars : List Chars) (vPrev : Option Chars)
    (colName a : Chars) :
    resolveV legendVars vPrev colName ≠ .error (.temporalResolutionError a) := by
  unfold resolveV
  split
  · simp
  · split
    · split <;> simp
    · simp

theorem attrsFor_no_temporal (legend : List LegendRow) (temporal_agg v a : Chars) :
    attrsFor legend temporal_agg v ≠ .error (.temporalResolutionError a) := by
  unfold attrsFor
  split
  · simp
  · split
    · simp
    · split <;> simp

theorem varLoop_no_temporal (legend : List LegendRow) (temporal_agg : Chars)
    (vars : List Chars) (vP : Option Chars) (a : Chars) :
    varLoop legend temporal_agg vP vars ≠ .error (.temporalResolutionError a) := by
  induction vars generalizing vP with
  | nil => simp [varLoop]
  | cons c rest ih =>
    unfold varLoop
    split
    next e heq =>
      intro hcon
      injection hcon with h2
      subst h2
      exact resolveV_no_temporal _ _ _ _ heq
    next heq => simp
    next v heq =>
      split
      next e heq2 =>
        intro hcon
        injection hcon with h2
        subst h2
        exact attrsFor_no_temporal _ _ _ _ heq2
      next at2 heq2 =>
        split
        next e heq3 =>
          intro hcon
          injection hcon with h2
          subst h2
          exact ih _ heq3
        next tail heq3 => simp

theorem check_date_format_no_temporal (df : Table) (c a : Chars) :
    check_date_format df c ≠ .error (.temporalResolutionError a) := by
  unfold check_date_format
  split
  · simp
  · split
    · simp
    · split
      · simp
      · split
        · simp
        · split <;> simp

theorem dropCol_no_temporal (df : Table) (c a : Chars) :
    dropCol df c ≠ .error (.temporalResolutionError a) := by
  unfold dropCol
  split <;> simp

theorem flux2body_no_temporal (env : Env) (site temporal_agg settype a : Chars) :
    flux2body env site temporal_agg settype ≠ .error (.temporalResolutionError a) := by
  unfold flux2body
  split
  next e heq =>
    intro hcon
    injection hcon with h2
    subst h2
    exact find_flux_file_no_temporal _ _ _ _ _ heq
  next fname heq =>
    split
    · simp
    next df0 heq2 =>
      split
      · simp
      next metadata heq3 =>
        split
        next e heq4 =>
          intro hcon
          injection hcon with h2
          subst h2
          by_cases hh : temporal_agg = nm ("HH")
          · rw [if_pos hh] at heq4
            exact dropCol_no_temporal _ _ _ heq4
          · rw [if_neg hh] at heq4
            exact absurd heq4 (by simp)
        next df1 heq4 =>
          split
          next e heq5 =>
            intro hcon
            injection hcon with h2
            subst h2
            exact check_date_format_no_temporal _ _ _ heq5
          next fmt heq5 =>
            split
            · simp
            next timeVals heq6 =>
              split
              next e heq7 =>
                intro hcon
                injection hcon with h2
                subst h2
                exact varLoop_no_temporal _ _ _ _ _ heq7
              next dv heq7 => simp

/-- C6: flux2netcdf raises TemporalResolutionError exactly when the
aggregation code is outside HH, DD, WW, YY, and in that case the result does
not depend on the filesystem environment at all, so the error precedes any
file discovery or read. -/
theorem flux2netcdf_temporal_check (env env2 : Env) (site agg settype : Chars) :
    (tempRaised (flux2netcdf env site agg settype) = true ↔ agg ∉ supportedAggs)
    ∧ (agg ∉ supportedAggs →
        flux2netcdf env site agg settype = flux2netcdf env2 site agg settype) := by
  constructor
  · constructor
    · intro h hmem
      unfold flux2netcdf at h
      rw [if_pos hmem] at h
      obtain ⟨a, ha⟩ := (tempRaised_true_iff _).mp h
      exact flux2body_no_temporal env site agg settype a ha
    · intro hmem
      unfold flux2netcdf
      rw [if_neg hmem]
      rfl
  · intro hmem
    unfold flux2netcdf
    rw [if_neg hmem, if_neg hmem]

/-- C6 witness: the unsupported aggregation code MM raises the error on the
demonstration environment. -/
theorem flux2netcdf_temporal_check_witness :
    tempRaised (flux2netcdf demoEnv (nm ("AA-Sit")) (nm ("MM")) (nm ("FULLSET"))) = true :=
  (flux2netcdf_temporal_check demoEnv demoEnv (nm ("AA-Sit")) (nm ("MM"))
    (nm ("FULLSET"))).1.mpr (by decide)

/-- C10: check_date_format is defined only for first timestamp entries of
digit length 4, 8 or 12, returning the matching strftime format, and raises
for every other length because the local date_format is never assigned. -/
theorem check_date_format_widths (df : Table) (c : Chars) (vals : List Cell) (x : Cell)
    (hc : lookupCol df c = some vals) (hx : vals.head? = some x) :
    ((pyStr x).length = 4 → check_date_format df c = .ok (nm ("%Y")))
    ∧ ((pyStr x).length = 8 → check_date_format df c = .ok (nm ("%Y%m%d")))
    ∧ ((pyStr x).length = 12 → check_date_format df c = .ok (nm ("%Y%m%d%H%M")))
    ∧ ((pyStr x).length ≠ 4 → (pyStr x).length ≠ 8 → (pyStr x).length ≠ 12 →
        check_date_format df c = .error .nameError) := by
  simp only [check_date_format, hc, hx]
  refine ⟨fun h => ?_, fun h => ?_, fun h => ?_, fun h4 h8 h12 => ?_⟩
  · rw [if_pos h]
  · rw [if_neg (by omega), if_pos h]
  · rw [if_neg (by omega), if_neg (by omega), if_pos h]
  · rw [if_neg h4, if_neg h8, if_neg h12]

/-- C10 witness: an eight-digit timestamp yields the day format and a
six-digit timestamp raises. -/
theorem check_date_format_widths_witness :
    check_date_format demoTable (nm ("TIMESTAMP")) = .ok (nm ("%Y%m%d"))
    ∧ check_date_format [(nm ("TIMESTAMP"), [190001])] (nm ("TIMESTAMP")) =
        .error .nameError := by
  constructor
  · exact (check_date_format_widths demoTable (nm ("TIMESTAMP")) [20040101, 20040102]
      20040101 rfl rfl).2.1 (by decide)
  · exact (check_date_format_widths [(nm ("TIMESTAMP"), [190001])] (nm ("TIMESTAMP"))
      [190001] 190001 rfl rfl).2.2.2 (by decide) (by decide) (by decide)

theorem attrsFor_fill (legend : List LegendRow) (agg v : Chars) (a : Attrs)
    (h : attrsFor legend agg v = .ok a) :
    (nm ("_FillValue"), AttrValue.num (-9999)) ∈ a := by
  unfold attrsFor at h
  split at h
  · exact absurd h (by simp)
  · split at h
    · exact absurd h (by simp)
    · split at h
      · exact absurd h (by simp)
      · injection h with h2
        rw [← h2]
        simp

theorem varLoop_fill (legend : List LegendRow) (agg : Chars) (vars : List Chars)
    (vP : Option Chars) (l : List (Chars × Attrs))
    (h : varLoop legend agg vP vars = .ok l) :
    l.all (fun va => decide ((nm ("_FillValue"), AttrValue.num (-9999)) ∈ va.2)) = true := by
  induction vars generalizing vP l with
  | nil =>
    unfold varLoop at h
    injection h with h2
    rw [← h2]
    rfl
  | cons c rest ih =>
    unfold varLoop at h
    split at h
    · exact absurd h (by simp)
    · exact absurd h (by simp)
    next v heq =>
      split at h
      · exact absurd h (by simp)
      next a2 heq2 =>
        split at h
        · exact absurd h (by simp)
        next tail heq3 =>
          injection h with h2
          rw [← h2, List.all_cons, Bool.and_eq_true]
          exact ⟨decide_eq_true (attrsFor_fill _ _ _ _ heq2), ih _ _ heq3⟩

/-- C8: on every successful conversion, each retained data variable carries
the fill-value sentinel -9999.0 in its attribute dictionary, while the lon
and lat coordinates carry their standard names, long names, degree units
and a boolean no-fill marker in place of a numeric fill value. -/
theorem flux2netcdf_output_attrs (env : Env) (site agg settype : Chars) (out : Output)
    (h : flux2netcdf env site agg settype = .ok out) :
    out.dataVars.all
      (fun va => decide ((nm ("_FillValue"), AttrValue.num (-9999)) ∈ va.2)) = true
    ∧ out.lonAttrs = [(nm ("standard_name"), AttrValue.str (nm ("longitude"))),
                      (nm ("long_name"), AttrValue.str (nm ("longitude coordinate"))),
                      (nm ("units"), AttrValue.str (nm ("degrees_east"))),
                      (nm ("_FillValue"), AttrValue.boolV false)]
    ∧ out.latAttrs = [(nm ("standard_name"), AttrValue.str (nm ("latitude"))),
                      (nm ("long_name"), AttrValue.str (nm ("latitude coordinate"))),
                      (nm ("units"), AttrValue.str (nm ("degrees_north"))),
                      (nm ("_FillValue"), AttrValue.boolV false)] := by
  unfold flux2netcdf at h
  split at h
  case isFalse => exact absurd h (by simp)
  unfold flux2body at h
  split at h
  · exact absurd h (by simp)
  next fname heq =>
    split at h
    · exact absurd h (by simp)
    next df0 heq2 =>
      split at h
      · exact absurd h (by simp)
      next metadata heq3 =>
        split at h
        · exact absurd h (by simp)
        next df1 heq4 =>
          split at h
          · exact absurd h (by simp)
          next fmt heq5 =>
            split at h
            · exact absurd h (by simp)
            next timeVals heq6 =>
              split at h
              · exact absurd h (by simp)
              next dv heq7 =>
                injection h with h2
                rw [← h2]
                exact ⟨varLoop_fill _ _ _ _ _ heq7, rfl, rfl⟩

/-- C8 witness: the successful demonstration run carries the fill-value
sentinel on its retained variable and the no-fill coordinate attributes. -/
theorem flux2netcdf_output_attrs_witness :
    demoRunOut.dataVars.all
      (fun va => decide ((nm ("_FillValue"), AttrValue.num (-9999)) ∈ va.2)) = true
    ∧ demoRunOut.lonAttrs = [(nm ("standard_name"), AttrValue.str (nm ("longitude"))),
                      (nm ("long_name"), AttrValue.str (nm ("longitude coordinate"))),
                      (nm ("units"), AttrValue.str (nm ("degrees_east"))),
                      (nm ("_FillValue"), AttrValue.boolV false)]
    ∧ demoRunOut.latAttrs = [(nm ("standard_name"), AttrValue.str (nm ("latitude"))),
                      (nm ("long_name"), AttrValue.str (nm ("latitude coordinate"))),
                      (nm ("units"), AttrValue.str (nm ("degrees_north"))),
                      (nm ("_FillValue"), AttrValue.boolV false)] :=
  flux2netcdf_output_attrs demoEnv (nm ("AA-Sit")) (nm ("DD")) (nm ("FULLSET"))
    demoRunOut rfl
